import Mathlib

/-!
# VPN proxy extension: the Proxy Controller

A shallow embedding of `src/background/background-fixed.js` and of the `window.fetch`
wrapper of `src/content/content.js`.

* JavaScript values are the JSON-like values that cross the extension's
  message boundary (`JsVal`).
* `chrome.storage.local` is a map from key to value (`Storage`); an absent key
  reads as `undefined`, which is what `result.key` gives in the callback of
  `chrome.storage.local.get`.
* Every call of `chrome.proxy.settings.set` is recorded in `World.proxyCalls`
  with the `details` object it was given.
* The two things a handler reads from its environment are explicit inputs
  (`Env`): the clock (`new Date().toISOString()`) and the value of
  `chrome.runtime.lastError` inside the callback of
  `chrome.proxy.settings.set`.
* A handler returns the world it leaves behind together with the object it
  passes to `sendResponse`.
* The outcome of an external `fetch` is an explicit input too (`Net`).
-/

namespace VpnExtension

/-! ## JavaScript values -/

/-- JSON-like JavaScript values. Numbers are integers (ports); `NaN` cannot cross
the JSON message boundary. An object is its list of own properties, an array its
list of elements. -/
inductive JsVal where
  | undefined : JsVal
  | null : JsVal
  | bool (b : Bool) : JsVal
  | num (n : Int) : JsVal
  | str (s : String) : JsVal
  | obj (fields : List (String × JsVal)) : JsVal
  | arr (items : List JsVal) : JsVal

/-- JavaScript `ToBoolean`: `undefined`, `null`, `false`, `0` and `""` are falsy,
everything else (every object included) is truthy. -/
def truthy : JsVal → Bool
  | .undefined => false
  | .null => false
  | .bool b => b
  | .num n => n != 0
  | .str s => s != ""
  | .obj _ => true
  | .arr _ => true

/-- Property read `v.k`. A property that an object does not own reads as
`undefined`, and so do the properties read here (`id`, `ip`, `port`, `protocol`,
`message`, `error`, `action`, `proxy`, `origin`) on a primitive or an array. A read
on `undefined` or `null` throws in JavaScript: in `handleSetProxy` such reads are
guarded by `!proxy ||` and by `if (chrome.runtime.lastError)`, and where the source
has no guard (`request.action`, `data.ip`, `data.origin`) the embedding tests
`isNullish` before it reads. -/
def getProp (v : JsVal) (k : String) : JsVal :=
  match v with
  | .obj fields => (fields.lookup k).getD .undefined
  | _ => .undefined

/-- The values on which a property read throws a `TypeError`: `undefined` and `null`. -/
def isNullish : JsVal → Bool
  | .undefined => true
  | .null => true
  | _ => false

/-- JavaScript `a || b`: `a` when it is truthy, else `b`. -/
def jsOr (a b : JsVal) : JsVal :=
  if truthy a then a else b

/-- JavaScript `v === s` for a string literal `s`. -/
def strictEqStr (v : JsVal) (s : String) : Bool :=
  match v with
  | .str t => t == s
  | _ => false

/-! ## The world the controller acts on -/

/-- The State Store, `chrome.storage.local`: key to value, `undefined` for an absent key. -/
abbrev Storage := String → JsVal

/-- `chrome.storage.local.set(items)`: the keys of `items` are overwritten, every
other key keeps its value. -/
def storageSet (s : Storage) (items : List (String × JsVal)) : Storage :=
  fun k =>
    match items.lookup k with
    | some v => v
    | none => s k

/-- The State Store and the log of `chrome.proxy.settings.set` calls (the `details`
argument of each call, oldest first). -/
structure World where
  storage : Storage
  proxyCalls : List JsVal

/-- What a handler reads from its environment. -/
structure Env where
  /-- The result of `new Date().toISOString()`. -/
  now : String
  /-- The value of `chrome.runtime.lastError` inside the callback of
  `chrome.proxy.settings.set`: `undefined` when the platform accepted the change. -/
  runtimeLastError : JsVal

/-- `chrome.proxy.settings.set(details, callback)`: the call is recorded. -/
def proxySettingsSet (w : World) (details : JsVal) : World :=
  { w with proxyCalls := w.proxyCalls ++ [details] }

/-! ## Handlers -/

/-- Lines 126-148 of `handleSetProxy`: apply `config` through the platform API and,
in its callback, either report `chrome.runtime.lastError` or store the proxy. -/
def handleSetProxy.apply (env : Env) (proxy config : JsVal) (w : World) : World × JsVal :=
  let w1 := proxySettingsSet w (.obj [("value", config), ("scope", .str "regular")])
  if truthy env.runtimeLastError then
    (w1, .obj [("success", .bool false),
               ("error", getProp env.runtimeLastError "message")])
  else
    ({ w1 with storage := (storageSet w1.storage
          [("selectedProxy", proxy),
           ("proxyActive", .bool (!strictEqStr (getProp proxy "id") "direct")),
           ("lastConnected", .str env.now)]) },
     .obj [("success", .bool true)])

/-- `handleSetProxy(proxy, sendResponse)`, lines 85-149. -/
def handleSetProxy (env : Env) (proxy : JsVal) (w : World) : World × JsVal :=
  if !truthy proxy || !truthy (getProp proxy "ip") then
    (w, .obj [("success", .bool false), ("error", .str "Invalid proxy configuration")])
  else if strictEqStr (getProp proxy "id") "direct"
      || strictEqStr (getProp proxy "ip") "DIRECT" then
    handleSetProxy.apply env proxy (.obj [("mode", .str "direct")]) w
  else if !truthy (getProp proxy "port") then
    (w, .obj [("success", .bool false), ("error", .str "Invalid proxy port")])
  else
    handleSetProxy.apply env proxy
      (.obj [("mode", .str "fixed_servers"),
             ("rules", .obj [("singleProxy", .obj
                [("scheme", jsOr (getProp proxy "protocol") (.str "http")),
                 ("host", getProp proxy "ip"),
                 ("port", getProp proxy "port")])])]) w

/-- `handleClearProxy(sendResponse)`, lines 152-181. -/
def handleClearProxy (env : Env) (w : World) : World × JsVal :=
  let w1 := proxySettingsSet w
    (.obj [("value", .obj [("mode", .str "direct")]), ("scope", .str "regular")])
  if truthy env.runtimeLastError then
    (w1, .obj [("success", .bool false),
               ("error", getProp env.runtimeLastError "message")])
  else
    ({ w1 with storage := (storageSet w1.storage
          [("selectedProxy", .null),
           ("proxyActive", .bool false),
           ("lastDisconnected", .str env.now)]) },
     .obj [("success", .bool true)])

/-- `handleGetProxyStatus(sendResponse)`, lines 184-192. -/
def handleGetProxyStatus (w : World) : World × JsVal :=
  (w, .obj [("isActive", jsOr (w.storage "proxyActive") (.bool false)),
            ("activeProxy", jsOr (w.storage "selectedProxy") .null),
            ("lastError", jsOr (w.storage "lastError") .null)])

/-- The `chrome.runtime.onInstalled` listener, lines 7-27: the store is initialised. -/
def onInstalled (now : String) (w : World) : World :=
  { w with storage := (storageSet w.storage
      [("proxyActive", .bool false),
       ("selectedProxy", .null),
       ("installDate", .str now)]) }

/-- The `chrome.proxy.onProxyError` listener, lines 42-55. -/
def onProxyError (now : String) (details : JsVal) (w : World) : World :=
  { w with storage := (storageSet w.storage
      [("proxyActive", .bool false),
       ("lastError", .obj [("message", getProp details "error"),
                           ("timestamp", .str now)])]) }

/-! ## Validation, events and sample inputs -/

/-- The test of line 98: the descriptor denotes a direct connection. -/
def isDirect (proxy : JsVal) : Bool :=
  strictEqStr (getProp proxy "id") "direct" || strictEqStr (getProp proxy "ip") "DIRECT"

/-- A descriptor passes validation when neither guard of `handleSetProxy` (lines 87
and 104) rejects it. -/
def passesValidation (proxy : JsVal) : Bool :=
  truthy proxy && truthy (getProp proxy "ip")
    && (isDirect proxy || truthy (getProp proxy "port"))

/-- The configuration given to the most recent `chrome.proxy.settings.set` call:
the `value` of its `details` argument. -/
def lastAppliedConfig (w : World) : JsVal :=
  match w.proxyCalls.getLast? with
  | some details => getProp details "value"
  | none => .undefined

/-- The events that change proxy state: a `setProxy` message (dispatched at line 62
to `handleSetProxy(request.proxy, _)`), a `clearProxy` message (line 65) and a
platform proxy-error event (line 42). -/
inductive Event where
  | setProxy (env : Env) (proxy : JsVal) : Event
  | clearProxy (env : Env) : Event
  | proxyError (now : String) (details : JsVal) : Event

/-- One event handled by the controller. -/
def step (w : World) : Event → World
  | .setProxy env proxy => (handleSetProxy env proxy w).1
  | .clearProxy env => (handleClearProxy env w).1
  | .proxyError now details => onProxyError now details w

/-- A finite sequence of events handled one after another. -/
def run (w : World) (events : List Event) : World :=
  events.foldl step w

/-- The part of the invariant that every handler keeps: when the stored `proxyActive`
is `true`, the stored `selectedProxy` is a descriptor whose `id` is not `'direct'`. -/
def ActiveHasProxy (w : World) : Prop :=
  w.storage "proxyActive" = .bool true →
    truthy (w.storage "selectedProxy") = true
      ∧ getProp (w.storage "selectedProxy") "id" ≠ .str "direct"

/-- A world with an empty store and no platform call made. -/
def emptyWorld : World :=
  { storage := fun _ => .undefined, proxyCalls := [] }

/-- The second entry of the list of `handleFetchProxies` (lines 207-214). -/
def demo1 : JsVal :=
  .obj [("id", .str "demo-1"), ("ip", .str "127.0.0.1"), ("port", .num 8080),
        ("country", .str "Local Test Server"), ("protocol", .str "http"),
        ("anonymity", .str "transparent")]

/-- The first entry of the list of `handleFetchProxies` (lines 199-206). -/
def directEntry : JsVal :=
  .obj [("id", .str "direct"), ("ip", .str "DIRECT"), ("port", .num 0),
        ("country", .str "Direct Connection (No Proxy)"), ("protocol", .str "direct"),
        ("anonymity", .str "none")]

/-- A world whose store says that `demo1` is the active proxy. -/
def activeWorld : World :=
  { storage := storageSet (fun _ => .undefined)
      [("proxyActive", .bool true), ("selectedProxy", demo1)],
    proxyCalls := [] }

/-- The platform accepts the change: `chrome.runtime.lastError` is `undefined`. -/
def accepting : Env :=
  { now := "2024-01-01T00:00:00.000Z", runtimeLastError := .undefined }

/-- The platform rejects the change with a message. -/
def rejecting : Env :=
  { now := "2024-01-01T00:00:00.000Z",
    runtimeLastError := .obj [("message", .str "Invalid proxy settings")] }

/-- A descriptor whose `id` is `'direct'` although it carries an address and a port. -/
def directWithAddress : JsVal :=
  .obj [("id", .str "direct"), ("ip", .str "10.0.0.1"), ("port", .num 8080),
        ("protocol", .str "http")]

/-- A descriptor whose `ip` is `'DIRECT'` while its `id` is not `'direct'`. -/
def directByIp : JsVal :=
  .obj [("id", .str "proxy-1"), ("ip", .str "DIRECT")]

/-! ## The remaining handlers and the message dispatcher -/

/-- The third entry of the list of `handleFetchProxies` (lines 215-222). -/
def demo2 : JsVal :=
  .obj [("id", .str "demo-2"), ("ip", .str "proxy.example.com"), ("port", .num 3128),
        ("country", .str "Demo Proxy Server"), ("protocol", .str "http"),
        ("anonymity", .str "anonymous")]

/-- `handleFetchProxies(sendResponse)`, lines 195-231. Nothing in the `try` block
throws, so the `catch` block is never entered. -/
def handleFetchProxies (w : World) : World × JsVal :=
  (w, .obj [("success", .bool true), ("proxies", .arr [directEntry, demo1, demo2])])

/-- How a `fetch(url).then(response => response.ok ? response.json() : throw ...)`
chain ends. A rejection carries the `message` of its `Error`. -/
inductive FetchOutcome where
  /-- The promise of `fetch` rejects. -/
  | rejected (message : String) : FetchOutcome
  /-- The response arrives with `response.ok` false. -/
  | notOk : FetchOutcome
  /-- The response is ok and `response.json()` rejects. -/
  | badBody (message : String) : FetchOutcome
  /-- The response is ok and its body parses to `data`. -/
  | body (data : JsVal) : FetchOutcome

/-- What the fetch-based handlers read from their environment. -/
structure Net where
  /-- How the fetch chain ends. -/
  outcome : FetchOutcome
  /-- The `message` of the `TypeError` that a property read on `null` or `undefined`
  throws. -/
  nullReadMessage : String

/-- The fallback reply of `handleGetCurrentIP`, lines 255-261. -/
def ipFallback : JsVal :=
  .obj [("success", .bool true),
        ("ipInfo", .obj [("ip", .str "Unable to detect"), ("location", .str "Unknown")])]

/-- `handleGetCurrentIP(sendResponse)`, lines 234-263. Every rejection of the chain,
the `TypeError` of `data.ip` on a `null` body included, ends in the `catch` callback. -/
def handleGetCurrentIP (net : Net) (w : World) : World × JsVal :=
  match net.outcome with
  | .body data =>
    if isNullish data then (w, ipFallback)
    else
      (w, .obj [("success", .bool true),
                ("ipInfo", .obj [("ip", getProp data "ip"),
                                 ("location", .str "Location lookup disabled for privacy")])])
  | _ => (w, ipFallback)

/-- The reply of the `catch` callback of `handleTestConnection`, lines 287-291. -/
def testFailed (message : String) : JsVal :=
  .obj [("success", .bool true), ("connected", .bool false),
        ("message", .str ("Connection test failed: " ++ message))]

/-- `handleTestConnection(sendResponse)`, lines 266-293. -/
def handleTestConnection (net : Net) (w : World) : World × JsVal :=
  match net.outcome with
  | .rejected message => (w, testFailed message)
  | .notOk => (w, testFailed "Connection test failed")
  | .badBody message => (w, testFailed message)
  | .body data =>
    if isNullish data then (w, testFailed net.nullReadMessage)
    else
      (w, .obj [("success", .bool true), ("connected", .bool true),
                ("ip", getProp data "origin"),
                ("message", .str "Connection successful")])

/-- The `chrome.runtime.onMessage` listener, lines 58-82. The reply is `none` when the
listener throws before it answers: `request.action` on a `null` or `undefined`
request. -/
def onMessage (env : Env) (net : Net) (request : JsVal) (w : World) : World × Option JsVal :=
  if isNullish request then (w, none)
  else if strictEqStr (getProp request "action") "setProxy" then
    ((handleSetProxy env (getProp request "proxy") w).1,
     some (handleSetProxy env (getProp request "proxy") w).2)
  else if strictEqStr (getProp request "action") "clearProxy" then
    ((handleClearProxy env w).1, some (handleClearProxy env w).2)
  else if strictEqStr (getProp request "action") "getProxyStatus" then
    ((handleGetProxyStatus w).1, some (handleGetProxyStatus w).2)
  else if strictEqStr (getProp request "action") "fetchProxies" then
    ((handleFetchProxies w).1, some (handleFetchProxies w).2)
  else if strictEqStr (getProp request "action") "getCurrentIP" then
    ((handleGetCurrentIP net w).1, some (handleGetCurrentIP net w).2)
  else if strictEqStr (getProp request "action") "testConnection" then
    ((handleTestConnection net w).1, some (handleTestConnection net w).2)
  else
    (w, some (.obj [("error", .str "Unknown action")]))

/-- The `chrome.runtime.onStartup` listener, lines 30-39: it reads `proxyActive` and
`selectedProxy` and only writes to the console. -/
def onStartup (w : World) : World :=
  if truthy (w.storage "proxyActive") && truthy (w.storage "selectedProxy") then w else w

/-- The `chrome.tabs.onUpdated` listener, lines 296-305: it reads `proxyActive` and
only writes to the console. Its first parameter, `tabId`, is not used. -/
def onTabUpdated (changeInfo tab : JsVal) (w : World) : World :=
  if strictEqStr (getProp changeInfo "status") "complete" && truthy (getProp tab "url") then
    if truthy (w.storage "proxyActive") then w else w
  else w

/-- The events the controller listens to after installation. -/
inductive ControllerEvent where
  | message (env : Env) (net : Net) (request : JsVal) : ControllerEvent
  | proxyError (now : String) (details : JsVal) : ControllerEvent
  | startup : ControllerEvent
  | tabUpdated (changeInfo tab : JsVal) : ControllerEvent

/-- The world after the controller's listener for the event has run. -/
def ControllerEvent.handle (w : World) : ControllerEvent → World
  | .message env net request => (onMessage env net request w).1
  | .proxyError now details => onProxyError now details w
  | .startup => onStartup w
  | .tabUpdated changeInfo tab => onTabUpdated changeInfo tab w

/-- The event is a message whose action is `setProxy` or `clearProxy`. -/
def ControllerEvent.isSetOrClear : ControllerEvent → Bool
  | .message _ _ request =>
    strictEqStr (getProp request "action") "setProxy"
      || strictEqStr (getProp request "action") "clearProxy"
  | _ => false

/-- The event is a platform proxy-error event. -/
def ControllerEvent.isProxyError : ControllerEvent → Bool
  | .proxyError _ _ => true
  | _ => false

/-! ## Sequences of setProxy and clearProxy requests -/

/-- A `setProxy` or `clearProxy` request together with what its handler will read
from the environment. -/
inductive Request where
  | setProxy (env : Env) (proxy : JsVal) : Request
  | clearProxy (env : Env) : Request

/-- The request as an event of the controller. -/
def Request.toEvent : Request → Event
  | .setProxy env proxy => .setProxy env proxy
  | .clearProxy env => .clearProxy env

/-- The reply to the request, handled in world `w`. -/
def Request.reply (w : World) : Request → JsVal
  | .setProxy env proxy => (handleSetProxy env proxy w).2
  | .clearProxy env => (handleClearProxy env w).2

/-- The request succeeds: it passes validation (`setProxy`) and the platform accepts
the change. -/
def Request.succeeds : Request → Bool
  | .setProxy env proxy => passesValidation proxy && !truthy env.runtimeLastError
  | .clearProxy env => !truthy env.runtimeLastError

/-- The `proxyActive` and `selectedProxy` that the request gives to
`chrome.storage.local.set` when it succeeds (lines 140-141 and 172-173). -/
def Request.written : Request → JsVal × JsVal
  | .setProxy _ proxy => (.bool (!strictEqStr (getProp proxy "id") "direct"), proxy)
  | .clearProxy _ => (.bool false, .null)

/-- The last request of the sequence that succeeded, if any. -/
def lastSucceeded (requests : List Request) : Option Request :=
  requests.reverse.find? Request.succeeds

/-! ## The content script's fetch wrapper -/

/-- Does `pat` occur in the list as a contiguous block. -/
def includesChars (pat : List Char) : List Char → Bool
  | [] => pat.isEmpty
  | c :: cs => pat.isPrefixOf (c :: cs) || includesChars pat cs

/-- JavaScript `s.includes(pat)`. -/
def jsIncludes (s pat : String) : Bool :=
  includesChars pat.data s.data

/-- The test of lines 79-83 of `content.js`: the first argument is a string that
names a known IP-lookup service. -/
def isIpCheckUrl (url : JsVal) : Bool :=
  match url with
  | .str u =>
    jsIncludes u "ipify" || jsIncludes u "ip-api" || jsIncludes u "httpbin"
      || jsIncludes u "whatismyip"
  | _ => false

/-- What the page observes of the wrapper: the messages that
`chrome.runtime.sendMessage` accepted and the argument lists given to the original
`fetch`. -/
structure PageLog where
  sent : List JsVal
  fetchCalls : List (List JsVal)

/-- The replacement `window.fetch`, lines 75-96 of `content.js`. `sendThrows` is
`some m` when `chrome.runtime.sendMessage` throws an error with message `m` (as it
does with `'Extension context invalidated.'` in a page that outlives its extension)
and `none` when it returns. The call of line 88 stands in no `try` block, so an error
it throws leaves the wrapper before line 95: the result is `.error m` and the original
`fetch` is not called. Otherwise the result is `.ok` of what the original `fetch`
returned. -/
def window.fetch {R : Type} (now : String) (sendThrows : Option String)
    (originalFetch : List JsVal → R) (args : List JsVal) (log : PageLog) :
    PageLog × Except String R :=
  let url := args.head?.getD .undefined
  if isIpCheckUrl url then
    match sendThrows with
    | some message => (log, .error message)
    | none =>
      ({ sent := log.sent ++
           [.obj [("action", .str "ipCheckDetected"), ("url", url), ("timestamp", .str now)]],
         fetchCalls := log.fetchCalls ++ [args] },
       .ok (originalFetch args))
  else
    ({ log with fetchCalls := log.fetchCalls ++ [args] }, .ok (originalFetch args))

/-- A page log with nothing recorded. -/
def emptyPageLog : PageLog :=
  { sent := [], fetchCalls := [] }

/-- A proxy-error event as the platform reports it. -/
def proxyErrorDetails : JsVal :=
  .obj [("details", .str ""), ("error", .str "net::ERR_PROXY_CONNECTION_FAILED"),
        ("fatal", .bool true)]

/-- The IP-lookup service answers with an address. -/
def ipAnswer : Net :=
  { outcome := .body (.obj [("ip", .str "203.0.113.7")]),
    nullReadMessage := "Cannot read properties of null" }

/-- An ok response whose body is the JSON text `null`. -/
def nullAnswer : Net :=
  { outcome := .body .null, nullReadMessage := "Cannot read properties of null" }

/-- The notification of line 62 of `content.js`, sent on a page's network error. -/
def reportNetworkError : JsVal :=
  .obj [("action", .str "reportNetworkError"),
        ("error", .obj [("message", .str "Failed to fetch"),
                        ("url", .str "https://example.com/"),
                        ("timestamp", .str "2024-01-01T00:00:00.000Z")])]

/-- The notification of line 88 of `content.js`, sent when a page calls an IP-lookup
service. -/
def ipCheckDetected : JsVal :=
  .obj [("action", .str "ipCheckDetected"),
        ("url", .str "https://api.ipify.org?format=json"),
        ("timestamp", .str "2024-01-01T00:00:00.000Z")]

/-! ## The UI client: ProxyService.setProxy and App.connectToProxy -/

/-- The message of line 135 of `proxyService.js`: `{action: 'setProxy', proxy: proxy}`. -/
def setProxyRequest (proxy : JsVal) : JsVal :=
  .obj [("action", .str "setProxy"), ("proxy", proxy)]

/-- `ProxyService.setProxy(proxy)`, lines 126-147 of `proxyService.js`, as the outcome of
its promise: `.ok ()` when it resolves, `.error m` when it rejects with an `Error` whose
message is `m`. Its inputs are whether the `chrome.runtime` API exists, and the
`chrome.runtime.lastError` and the `response` seen by the callback of
`chrome.runtime.sendMessage`. `toStr` is the conversion that `new Error(x)` applies to
its argument. -/
def ProxyService.setProxy (toStr : JsVal → String) (chromeAvailable : Bool)
    (lastError response : JsVal) : Except String Unit :=
  if !chromeAvailable then .error "Chrome extension APIs not available"
  else if truthy lastError then .error (toStr (getProp lastError "message"))
  else if truthy response && truthy (getProp response "success") then .ok ()
  else
    .error (toStr (jsOr (if isNullish response then .undefined else getProp response "error")
      (.str "Failed to set proxy")))

/-- The state of the popup that `connectToProxy` touches. -/
structure AppState where
  isConnected : JsVal
  selectedProxy : JsVal
  loading : Bool
  error : String

/-- The popup as it opens, lines 8-14 of `App.js`. -/
def initialAppState : AppState :=
  { isConnected := .bool false, selectedProxy := .null, loading := true, error := "" }

/-- The `catch` block of `connectToProxy`, lines 127-131 of `App.js`. -/
def App.connectToProxy.failed (message : String) (s : AppState) : AppState :=
  { s with
    error := "❌ Connection failed: " ++ message
      ++ ". Try \"Direct Connection\" for normal browsing.",
    loading := false }

/-- `connectToProxy(proxy)`, lines 98-132 of `App.js`, up to the point where it returns:
the state it leaves once `await ProxyService.setProxy(proxy)` has settled with
`setProxyResult`. The timer that later refreshes the IP and clears `loading` is not part
of it. `nullReadMessage` is the message of the `TypeError` that `proxy.id` throws on a
`null` or `undefined` proxy. -/
def App.connectToProxy (nullReadMessage : String) (setProxyResult : Except String Unit)
    (proxy : JsVal) (s : AppState) : AppState :=
  let s1 : AppState := { s with loading := true, error := "" }
  match setProxyResult with
  | .error message => App.connectToProxy.failed message s1
  | .ok _ =>
    let s2 : AppState := { s1 with selectedProxy := proxy }
    if isNullish proxy then App.connectToProxy.failed nullReadMessage s2
    else if strictEqStr (getProp proxy "id") "direct" then
      { s2 with isConnected := .bool false,
                error := "✅ Direct connection active - browsing normally without proxy" }
    else if strictEqStr (getProp proxy "id") "system" then
      { s2 with isConnected := .bool true,
                error := "⚙️ Using system proxy settings - check your OS network configuration" }
    else if strictEqStr (getProp proxy "id") "pac-demo" then
      { s2 with isConnected := .bool true,
                error := "📜 PAC script demo active - demonstrates proxy auto-configuration" }
    else
      { s2 with isConnected := .bool true,
                error := "🔗 Proxy server connected - IP should be masked" }

/-! ## Basic facts -/

theorem strictEqStr_eq_true_iff (v : JsVal) (s : String) :
    strictEqStr v s = true ↔ v = .str s := by
  cases v <;> simp [strictEqStr]

theorem strictEqStr_eq_false_iff (v : JsVal) (s : String) :
    strictEqStr v s = false ↔ v ≠ .str s := by
  cases v <;> simp [strictEqStr]

theorem getProp_obj (fields : List (String × JsVal)) (k : String) :
    getProp (.obj fields) k = (fields.lookup k).getD .undefined := rfl

theorem jsOr_of_truthy (a b : JsVal) (h : truthy a = true) : jsOr a b = a := by
  simp [jsOr, h]

theorem jsOr_of_falsy (a b : JsVal) (h : truthy a = false) : jsOr a b = b := by
  simp [jsOr, h]

theorem jsOr_bool_false (b : Bool) : jsOr (.bool b) (.bool false) = .bool b := by
  cases b <;> simp [jsOr, truthy]

theorem truthy_of_truthy_getProp (v : JsVal) (k : String)
    (h : truthy (getProp v k) = true) : truthy v = true := by
  cases v <;> simp_all [getProp, truthy]

/-- The platform API is called (exactly once) exactly for the descriptors that pass
validation. -/
theorem passesValidation_iff_called (env : Env) (proxy : JsVal) (w : World) :
    passesValidation proxy = true ↔
      (handleSetProxy env proxy w).1.proxyCalls.length = w.proxyCalls.length + 1 := by
  unfold passesValidation isDirect handleSetProxy handleSetProxy.apply proxySettingsSet
  cases h1 : truthy proxy <;> cases h2 : truthy (getProp proxy "ip") <;>
    cases h3 : strictEqStr (getProp proxy "id") "direct" <;>
    cases h4 : strictEqStr (getProp proxy "ip") "DIRECT" <;>
    cases h5 : truthy (getProp proxy "port") <;>
    cases h6 : truthy env.runtimeLastError <;> simp

/-! ## setProxy: validation failures -/

/-- C1: for every prior state and every descriptor that is absent (falsy) or whose
`ip` is missing or empty (falsy), `handleSetProxy` replies
`{success:false, error:'Invalid proxy configuration'}`, makes no call of the
platform proxy API and leaves every key of the store unchanged. -/
theorem handleSetProxy_missing_ip (env : Env) (proxy : JsVal) (w : World)
    (h : truthy proxy = false ∨ truthy (getProp proxy "ip") = false) :
    (handleSetProxy env proxy w).2
        = .obj [("success", .bool false), ("error", .str "Invalid proxy configuration")]
      ∧ (handleSetProxy env proxy w).1.proxyCalls = w.proxyCalls
      ∧ (handleSetProxy env proxy w).1.storage = w.storage := by
  unfold handleSetProxy
  rcases h with h | h <;> simp [h]

/-- Witness of C1: a descriptor without `ip`, sent while `demo1` is active. -/
theorem handleSetProxy_missing_ip_witness :
    truthy (getProp (.obj [("id", .str "demo-1"), ("port", .num 8080)]) "ip") = false
      ∧ (handleSetProxy accepting (.obj [("id", .str "demo-1"), ("port", .num 8080)])
            activeWorld).2
          = .obj [("success", .bool false), ("error", .str "Invalid proxy configuration")]
      ∧ (handleSetProxy accepting (.obj [("id", .str "demo-1"), ("port", .num 8080)])
            activeWorld).1.proxyCalls = activeWorld.proxyCalls
      ∧ (handleSetProxy accepting (.obj [("id", .str "demo-1"), ("port", .num 8080)])
            activeWorld).1.storage = activeWorld.storage :=
  ⟨by decide, handleSetProxy_missing_ip accepting _ activeWorld (Or.inr (by decide))⟩

/-- C2: for every prior state and every non-direct descriptor (`id` is not
`'direct'`, `ip` is present and not `'DIRECT'`) whose `port` is missing (falsy),
`handleSetProxy` replies `{success:false, error:'Invalid proxy port'}`, makes no call
of the platform proxy API and leaves every key of the store unchanged. -/
theorem handleSetProxy_missing_port (env : Env) (proxy : JsVal) (w : World)
    (hid : getProp proxy "id" ≠ .str "direct")
    (hip : truthy (getProp proxy "ip") = true)
    (hnd : getProp proxy "ip" ≠ .str "DIRECT")
    (hport : truthy (getProp proxy "port") = false) :
    (handleSetProxy env proxy w).2
        = .obj [("success", .bool false), ("error", .str "Invalid proxy port")]
      ∧ (handleSetProxy env proxy w).1.proxyCalls = w.proxyCalls
      ∧ (handleSetProxy env proxy w).1.storage = w.storage := by
  have hp := truthy_of_truthy_getProp proxy "ip" hip
  have h1 := (strictEqStr_eq_false_iff _ _).mpr hid
  have h2 := (strictEqStr_eq_false_iff _ _).mpr hnd
  unfold handleSetProxy
  simp [hp, hip, h1, h2, hport]

/-- Witness of C2: `demo-1` without its port, sent while the store is active. -/
theorem handleSetProxy_missing_port_witness :
    getProp (.obj [("id", .str "demo-1"), ("ip", .str "127.0.0.1")]) "port" = .undefined
      ∧ (handleSetProxy accepting (.obj [("id", .str "demo-1"), ("ip", .str "127.0.0.1")])
            activeWorld).2
          = .obj [("success", .bool false), ("error", .str "Invalid proxy port")]
      ∧ (handleSetProxy accepting (.obj [("id", .str "demo-1"), ("ip", .str "127.0.0.1")])
            activeWorld).1.proxyCalls = activeWorld.proxyCalls
      ∧ (handleSetProxy accepting (.obj [("id", .str "demo-1"), ("ip", .str "127.0.0.1")])
            activeWorld).1.storage = activeWorld.storage :=
  ⟨by rfl,
   handleSetProxy_missing_port accepting _ activeWorld
     (by simp [getProp, List.lookup]) (by decide) (by simp [getProp, List.lookup])
     (by decide)⟩

/-! ## setProxy: what a success stores -/

/-- C3, as stated, fails: the descriptor `{id:'direct', ip:'10.0.0.1', port:8080}` has a
non-empty `ip` other than `'DIRECT'` and a defined `port`, `handleSetProxy` succeeds on
it, and the stored `proxyActive` is `false`, not `true`. -/
theorem handleSetProxy_direct_id_counterexample :
    truthy (getProp directWithAddress "ip") = true
      ∧ getProp directWithAddress "ip" ≠ .str "DIRECT"
      ∧ getProp directWithAddress "port" ≠ .undefined
      ∧ (handleSetProxy accepting directWithAddress emptyWorld).2
          = .obj [("success", .bool true)]
      ∧ (handleSetProxy accepting directWithAddress emptyWorld).1.storage "proxyActive"
          = .bool false
      ∧ (handleSetProxy accepting directWithAddress emptyWorld).1.storage "proxyActive"
          ≠ .bool true := by
  refine ⟨by decide, ?_, ?_, rfl, rfl, ?_⟩
  · simp [directWithAddress, getProp, List.lookup]
  · simp [directWithAddress, getProp, List.lookup]
  · have h : (handleSetProxy accepting directWithAddress emptyWorld).1.storage "proxyActive"
        = .bool false := rfl
    rw [h]
    simp

/-- C3, amended: for every prior state and every descriptor whose `id` is not
`'direct'`, with a non-empty `ip` other than `'DIRECT'` and a defined `port`, whenever
`handleSetProxy` replies `{success:true}` the stored `proxyActive` is `true` and the
stored `selectedProxy` is the input descriptor. -/
theorem handleSetProxy_success_active (env : Env) (proxy : JsVal) (w : World)
    (hid : getProp proxy "id" ≠ .str "direct")
    (_hip : truthy (getProp proxy "ip") = true)
    (_hnd : getProp proxy "ip" ≠ .str "DIRECT")
    (_hport : getProp proxy "port" ≠ .undefined)
    (hok : (handleSetProxy env proxy w).2 = .obj [("success", .bool true)]) :
    (handleSetProxy env proxy w).1.storage "proxyActive" = .bool true
      ∧ (handleSetProxy env proxy w).1.storage "selectedProxy" = proxy := by
  have h1 := (strictEqStr_eq_false_iff _ _).mpr hid
  revert hok
  unfold handleSetProxy handleSetProxy.apply proxySettingsSet
  cases h2 : truthy proxy <;> cases h3 : truthy (getProp proxy "ip") <;>
    cases h4 : strictEqStr (getProp proxy "ip") "DIRECT" <;>
    cases h5 : truthy (getProp proxy "port") <;>
    cases h6 : truthy env.runtimeLastError <;>
    simp [h1, storageSet, List.lookup]

/-- Witness of C3 amended: `demo-1` at `127.0.0.1:8080`, accepted by the platform. -/
theorem handleSetProxy_success_active_witness :
    (handleSetProxy accepting demo1 emptyWorld).2 = .obj [("success", .bool true)]
      ∧ (handleSetProxy accepting demo1 emptyWorld).1.storage "proxyActive" = .bool true
      ∧ (handleSetProxy accepting demo1 emptyWorld).1.storage "selectedProxy" = demo1 :=
  ⟨rfl,
   handleSetProxy_success_active accepting demo1 emptyWorld
     (by simp [demo1, getProp, List.lookup]) (by decide)
     (by simp [demo1, getProp, List.lookup]) (by simp [demo1, getProp, List.lookup]) rfl⟩

/-- C4, as stated, fails: with `id` equal to `'direct'` and a store where `proxyActive`
is `true`, the stored `proxyActive` is still `true` after `handleSetProxy` when the
descriptor has no `ip` (first half) and when the platform rejects the change (second
half). -/
theorem handleSetProxy_direct_still_active_counterexample :
    (getProp (.obj [("id", .str "direct")]) "id" = .str "direct"
        ∧ activeWorld.storage "proxyActive" = .bool true
        ∧ (handleSetProxy accepting (.obj [("id", .str "direct")]) activeWorld).1.storage
            "proxyActive" = .bool true)
      ∧ (getProp directEntry "id" = .str "direct"
        ∧ (handleSetProxy rejecting directEntry activeWorld).1.storage "proxyActive"
            = .bool true) :=
  ⟨⟨rfl, rfl, rfl⟩, rfl, rfl⟩

/-- C4, amended: for every descriptor with `id` equal to `'direct'` and a non-empty
`ip`, and every prior state, when the platform accepts the configuration
`handleSetProxy` replies `{success:true}` and the stored `proxyActive` is `false`. -/
theorem handleSetProxy_direct_inactive (env : Env) (proxy : JsVal) (w : World)
    (hid : getProp proxy "id" = .str "direct")
    (hip : truthy (getProp proxy "ip") = true)
    (hok : truthy env.runtimeLastError = false) :
    (handleSetProxy env proxy w).2 = .obj [("success", .bool true)]
      ∧ (handleSetProxy env proxy w).1.storage "proxyActive" = .bool false := by
  have hp := truthy_of_truthy_getProp proxy "ip" hip
  have h1 := (strictEqStr_eq_true_iff _ _).mpr hid
  unfold handleSetProxy handleSetProxy.apply proxySettingsSet
  simp [hp, hip, h1, hok, storageSet, List.lookup]

/-- Witness of C4 amended: the direct entry of the list, sent while `demo1` is active. -/
theorem handleSetProxy_direct_inactive_witness :
    activeWorld.storage "proxyActive" = .bool true
      ∧ (handleSetProxy accepting directEntry activeWorld).2 = .obj [("success", .bool true)]
      ∧ (handleSetProxy accepting directEntry activeWorld).1.storage "proxyActive"
          = .bool false :=
  ⟨rfl, handleSetProxy_direct_inactive accepting directEntry activeWorld rfl (by decide) rfl⟩

/-! ## The invariant of the stored state -/

/-- C5, evaluated at the failing input: from the install-time state (`proxyActive` is
`false`, `selectedProxy` is `null`) one `setProxy` request with the descriptor
`{id:'proxy-1', ip:'DIRECT'}`, accepted by the platform, reaches a state where
`proxyActive` is `true` although the stored `selectedProxy` has `ip` equal to
`'DIRECT'`. -/
theorem reachable_active_with_direct_ip :
    (onInstalled "2024-01-01T00:00:00.000Z" emptyWorld).storage "proxyActive" = .bool false
      ∧ (onInstalled "2024-01-01T00:00:00.000Z" emptyWorld).storage "selectedProxy" = .null
      ∧ (run (onInstalled "2024-01-01T00:00:00.000Z" emptyWorld)
            [Event.setProxy accepting directByIp]).storage "proxyActive" = .bool true
      ∧ (run (onInstalled "2024-01-01T00:00:00.000Z" emptyWorld)
            [Event.setProxy accepting directByIp]).storage "selectedProxy" = directByIp
      ∧ getProp ((run (onInstalled "2024-01-01T00:00:00.000Z" emptyWorld)
            [Event.setProxy accepting directByIp]).storage "selectedProxy") "ip"
          = .str "DIRECT" :=
  ⟨rfl, rfl, rfl, rfl, rfl⟩

theorem step_keeps_activeHasProxy (w : World) (e : Event) (h : ActiveHasProxy w) :
    ActiveHasProxy (step w e) := by
  cases e with
  | setProxy env proxy =>
    unfold ActiveHasProxy at h ⊢
    simp only [ne_eq, ← strictEqStr_eq_true_iff] at h ⊢
    revert h
    unfold step handleSetProxy handleSetProxy.apply proxySettingsSet
    cases h1 : truthy proxy <;> cases h2 : truthy (getProp proxy "ip") <;>
      cases h3 : strictEqStr (getProp proxy "id") "direct" <;>
      cases h4 : strictEqStr (getProp proxy "ip") "DIRECT" <;>
      cases h5 : truthy (getProp proxy "port") <;>
      cases h6 : truthy env.runtimeLastError <;>
      simp [storageSet, List.lookup, h1, h2, h3, h4, h5, h6]
  | clearProxy env =>
    unfold ActiveHasProxy at h ⊢
    unfold step handleClearProxy proxySettingsSet
    cases h6 : truthy env.runtimeLastError
    · simp [h6, storageSet, List.lookup]
    · simpa [h6] using h
  | proxyError now details =>
    unfold ActiveHasProxy step onProxyError
    simp [storageSet, List.lookup]

theorem run_keeps_activeHasProxy (events : List Event) (w : World)
    (h : ActiveHasProxy w) : ActiveHasProxy (run w events) := by
  induction events generalizing w with
  | nil => exact h
  | cons e rest ih => exact ih (step w e) (step_keeps_activeHasProxy w e h)

/-- In every state reachable from the install-time state, a stored `proxyActive` of
`true` comes with a stored `selectedProxy` that is non-null and whose `id` is not
`'direct'`. Nothing is said of its `ip`. -/
theorem reachable_activeHasProxy (now : String) (w0 : World) (events : List Event) :
    ActiveHasProxy (run (onInstalled now w0) events) := by
  apply run_keeps_activeHasProxy
  unfold ActiveHasProxy onInstalled
  simp [storageSet, List.lookup]

/-! ## setProxy: the platform's answer -/

/-- C6: for every prior state and every descriptor that passes validation, if the
platform reports an error (`chrome.runtime.lastError` is set), `handleSetProxy` replies
`{success:false, error: chrome.runtime.lastError.message}` and every key of the store
is the same as before. -/
theorem handleSetProxy_platform_error (env : Env) (proxy : JsVal) (w : World)
    (hv : passesValidation proxy = true)
    (herr : truthy env.runtimeLastError = true) :
    (handleSetProxy env proxy w).2
        = .obj [("success", .bool false), ("error", getProp env.runtimeLastError "message")]
      ∧ (handleSetProxy env proxy w).1.storage = w.storage := by
  revert hv
  unfold passesValidation isDirect handleSetProxy handleSetProxy.apply proxySettingsSet
  cases h1 : truthy proxy <;> cases h2 : truthy (getProp proxy "ip") <;>
    cases h3 : strictEqStr (getProp proxy "id") "direct" <;>
    cases h4 : strictEqStr (getProp proxy "ip") "DIRECT" <;>
    cases h5 : truthy (getProp proxy "port") <;>
    simp [herr]

/-- Witness of C6: `demo1`, rejected by the platform while the store is active. -/
theorem handleSetProxy_platform_error_witness :
    (handleSetProxy rejecting demo1 activeWorld).2
        = .obj [("success", .bool false), ("error", .str "Invalid proxy settings")]
      ∧ (handleSetProxy rejecting demo1 activeWorld).1.storage = activeWorld.storage :=
  handleSetProxy_platform_error rejecting demo1 activeWorld (by decide) (by decide)

/-- C7: for every descriptor that passes validation and every prior state, when the
platform accepts the configuration `handleSetProxy` replies exactly `{success:true}`,
the store holds `selectedProxy` equal to the descriptor, `proxyActive` equal to
`id !== 'direct'` and `lastConnected` equal to the current time, and a following
`getProxyStatus` returns `activeProxy` equal to the descriptor and `isActive` equal to
`id !== 'direct'`. -/
theorem handleSetProxy_accepted (env : Env) (proxy : JsVal) (w : World)
    (hv : passesValidation proxy = true)
    (hok : truthy env.runtimeLastError = false) :
    (handleSetProxy env proxy w).2 = .obj [("success", .bool true)]
      ∧ (handleSetProxy env proxy w).1.storage "selectedProxy" = proxy
      ∧ (handleSetProxy env proxy w).1.storage "proxyActive"
          = .bool (!strictEqStr (getProp proxy "id") "direct")
      ∧ (handleSetProxy env proxy w).1.storage "lastConnected" = .str env.now
      ∧ getProp (handleGetProxyStatus (handleSetProxy env proxy w).1).2 "activeProxy" = proxy
      ∧ getProp (handleGetProxyStatus (handleSetProxy env proxy w).1).2 "isActive"
          = .bool (!strictEqStr (getProp proxy "id") "direct") := by
  revert hv
  unfold passesValidation isDirect handleSetProxy handleSetProxy.apply proxySettingsSet
    handleGetProxyStatus
  cases h1 : truthy proxy <;> cases h2 : truthy (getProp proxy "ip") <;>
    cases h3 : strictEqStr (getProp proxy "id") "direct" <;>
    cases h4 : strictEqStr (getProp proxy "ip") "DIRECT" <;>
    cases h5 : truthy (getProp proxy "port") <;>
    simp [hok, h1, storageSet, List.lookup, getProp_obj, jsOr_of_truthy, jsOr_bool_false]

/-- Witness of C7: the direct entry `{id:'direct', ip:'DIRECT', ...}` sent while `demo1`
is active; the status then reports the direct descriptor itself, not `null`, and
`isActive` is `false`. -/
theorem handleSetProxy_accepted_witness :
    (handleSetProxy accepting directEntry activeWorld).2 = .obj [("success", .bool true)]
      ∧ (handleSetProxy accepting directEntry activeWorld).1.storage "selectedProxy"
          = directEntry
      ∧ (handleSetProxy accepting directEntry activeWorld).1.storage "proxyActive"
          = .bool (!strictEqStr (getProp directEntry "id") "direct")
      ∧ (handleSetProxy accepting directEntry activeWorld).1.storage "lastConnected"
          = .str accepting.now
      ∧ getProp (handleGetProxyStatus (handleSetProxy accepting directEntry activeWorld).1).2
          "activeProxy" = directEntry
      ∧ getProp (handleGetProxyStatus (handleSetProxy accepting directEntry activeWorld).1).2
          "isActive" = .bool (!strictEqStr (getProp directEntry "id") "direct") :=
  handleSetProxy_accepted accepting directEntry activeWorld (by decide) (by decide)

/-! ## clearProxy -/

/-- C8: for every prior state, when the platform accepts the change `handleClearProxy`
replies `{success:true}` and the store then holds `proxyActive` equal to `false`,
`selectedProxy` equal to `null` and `lastDisconnected` equal to the current time. -/
theorem handleClearProxy_accepted (env : Env) (w : World)
    (hok : truthy env.runtimeLastError = false) :
    (handleClearProxy env w).2 = .obj [("success", .bool true)]
      ∧ (handleClearProxy env w).1.storage "proxyActive" = .bool false
      ∧ (handleClearProxy env w).1.storage "selectedProxy" = .null
      ∧ (handleClearProxy env w).1.storage "lastDisconnected" = .str env.now := by
  unfold handleClearProxy proxySettingsSet
  simp [hok, storageSet, List.lookup]

/-- Witness of C8: `clearProxy` while `demo1` is active. -/
theorem handleClearProxy_accepted_witness :
    activeWorld.storage "proxyActive" = .bool true
      ∧ (handleClearProxy accepting activeWorld).2 = .obj [("success", .bool true)]
      ∧ (handleClearProxy accepting activeWorld).1.storage "proxyActive" = .bool false
      ∧ (handleClearProxy accepting activeWorld).1.storage "selectedProxy" = .null
      ∧ (handleClearProxy accepting activeWorld).1.storage "lastDisconnected"
          = .str accepting.now :=
  ⟨rfl, handleClearProxy_accepted accepting activeWorld (by decide)⟩

/-! ## Store and platform configuration -/

/-- C9, evaluated at the failing input: the descriptor `{id:'proxy-1', ip:'DIRECT'}`
passes validation, the platform accepts, the configuration just applied is
`{mode:'direct'}`, and the stored `proxyActive` is `true`. -/
theorem handleSetProxy_direct_ip_store_disagrees :
    passesValidation directByIp = true
      ∧ (handleSetProxy accepting directByIp emptyWorld).2 = .obj [("success", .bool true)]
      ∧ lastAppliedConfig (handleSetProxy accepting directByIp emptyWorld).1
          = .obj [("mode", .str "direct")]
      ∧ (handleSetProxy accepting directByIp emptyWorld).1.storage "proxyActive"
          = .bool true :=
  ⟨rfl, rfl, rfl, rfl⟩

/-- C10: for every descriptor that passes validation, `handleSetProxy` makes one call
of the platform API, with scope `'regular'` and a configuration that is
`{mode:'direct'}` if and only if `id === 'direct'` or `ip === 'DIRECT'`; otherwise the
configuration is `{mode:'fixed_servers'}` with the single proxy rule
`{scheme: protocol || 'http', host: ip, port: port}`, whose scheme is the descriptor's
`protocol` when that is present (truthy) and `'http'` when it is absent. -/
theorem handleSetProxy_config (env : Env) (proxy : JsVal) (w : World)
    (hv : passesValidation proxy = true) :
    (handleSetProxy env proxy w).1.proxyCalls
        = w.proxyCalls ++
            [.obj [("value", lastAppliedConfig (handleSetProxy env proxy w).1),
                   ("scope", .str "regular")]]
      ∧ (lastAppliedConfig (handleSetProxy env proxy w).1 = .obj [("mode", .str "direct")]
          ↔ (getProp proxy "id" = .str "direct" ∨ getProp proxy "ip" = .str "DIRECT"))
      ∧ (¬ (getProp proxy "id" = .str "direct" ∨ getProp proxy "ip" = .str "DIRECT") →
          lastAppliedConfig (handleSetProxy env proxy w).1
            = .obj [("mode", .str "fixed_servers"),
                    ("rules", .obj [("singleProxy", .obj
                      [("scheme", jsOr (getProp proxy "protocol") (.str "http")),
                       ("host", getProp proxy "ip"),
                       ("port", getProp proxy "port")])])])
      ∧ (truthy (getProp proxy "protocol") = true →
          jsOr (getProp proxy "protocol") (.str "http") = getProp proxy "protocol")
      ∧ (getProp proxy "protocol" = .undefined →
          jsOr (getProp proxy "protocol") (.str "http") = .str "http") := by
  refine ⟨?_, ?_, ?_, fun h => jsOr_of_truthy _ _ h, fun h => ?_⟩
  · revert hv
    unfold passesValidation isDirect lastAppliedConfig handleSetProxy handleSetProxy.apply
      proxySettingsSet
    cases h1 : truthy proxy <;> cases h2 : truthy (getProp proxy "ip") <;>
      cases h3 : strictEqStr (getProp proxy "id") "direct" <;>
      cases h4 : strictEqStr (getProp proxy "ip") "DIRECT" <;>
      cases h5 : truthy (getProp proxy "port") <;>
      cases h6 : truthy env.runtimeLastError <;>
      simp [getProp_obj, List.lookup]
  · revert hv
    rw [← strictEqStr_eq_true_iff, ← strictEqStr_eq_true_iff]
    unfold passesValidation isDirect lastAppliedConfig handleSetProxy handleSetProxy.apply
      proxySettingsSet
    cases h1 : truthy proxy <;> cases h2 : truthy (getProp proxy "ip") <;>
      cases h3 : strictEqStr (getProp proxy "id") "direct" <;>
      cases h4 : strictEqStr (getProp proxy "ip") "DIRECT" <;>
      cases h5 : truthy (getProp proxy "port") <;>
      cases h6 : truthy env.runtimeLastError <;>
      simp [getProp_obj, List.lookup]
  · revert hv
    rw [← strictEqStr_eq_true_iff, ← strictEqStr_eq_true_iff]
    unfold passesValidation isDirect lastAppliedConfig handleSetProxy handleSetProxy.apply
      proxySettingsSet
    cases h1 : truthy proxy <;> cases h2 : truthy (getProp proxy "ip") <;>
      cases h3 : strictEqStr (getProp proxy "id") "direct" <;>
      cases h4 : strictEqStr (getProp proxy "ip") "DIRECT" <;>
      cases h5 : truthy (getProp proxy "port") <;>
      cases h6 : truthy env.runtimeLastError <;>
      simp [getProp_obj, List.lookup]
  · rw [h]
    rfl

/-- Witness of C10: `demo1` gives a fixed-server configuration for `127.0.0.1:8080` with
scheme `'http'`. -/
theorem handleSetProxy_config_witness :
    passesValidation demo1 = true
      ∧ lastAppliedConfig (handleSetProxy accepting demo1 emptyWorld).1
          = .obj [("mode", .str "fixed_servers"),
                  ("rules", .obj [("singleProxy", .obj
                    [("scheme", .str "http"), ("host", .str "127.0.0.1"),
                     ("port", .num 8080)])])] :=
  ⟨by decide,
   ((handleSetProxy_config accepting demo1 emptyWorld (by decide)).2.2.1
      (by simp [demo1, getProp, List.lookup])).trans rfl⟩

/-! ## Sequences of requests: last write wins -/

theorem handleGetProxyStatus_isActive (w : World) :
    getProp (handleGetProxyStatus w).2 "isActive"
      = jsOr (w.storage "proxyActive") (.bool false) := by
  simp [handleGetProxyStatus, getProp_obj, List.lookup]

theorem handleGetProxyStatus_activeProxy (w : World) :
    getProp (handleGetProxyStatus w).2 "activeProxy"
      = jsOr (w.storage "selectedProxy") .null := by
  simp [handleGetProxyStatus, getProp_obj, List.lookup]

theorem handleGetProxyStatus_lastError (w : World) :
    getProp (handleGetProxyStatus w).2 "lastError"
      = jsOr (w.storage "lastError") .null := by
  simp [handleGetProxyStatus, getProp_obj, List.lookup]

/-- A request succeeds exactly when its reply is `{success:true}`, in whatever world
it is handled. -/
theorem Request.succeeds_iff_reply (r : Request) (w : World) :
    r.succeeds = true ↔ r.reply w = .obj [("success", .bool true)] := by
  cases r with
  | setProxy env proxy =>
    unfold Request.succeeds Request.reply passesValidation isDirect handleSetProxy
      handleSetProxy.apply proxySettingsSet
    cases h1 : truthy proxy <;> cases h2 : truthy (getProp proxy "ip") <;>
      cases h3 : strictEqStr (getProp proxy "id") "direct" <;>
      cases h4 : strictEqStr (getProp proxy "ip") "DIRECT" <;>
      cases h5 : truthy (getProp proxy "port") <;>
      cases h6 : truthy env.runtimeLastError <;> simp [h1, h2, h3, h4, h5, h6]
  | clearProxy env =>
    unfold Request.succeeds Request.reply handleClearProxy proxySettingsSet
    cases h6 : truthy env.runtimeLastError <;> simp [h6]

/-- A request that succeeds stores what `Request.written` says. -/
theorem step_of_succeeds (r : Request) (w : World) (h : r.succeeds = true) :
    (step w r.toEvent).storage "proxyActive" = r.written.1
      ∧ (step w r.toEvent).storage "selectedProxy" = r.written.2 := by
  cases r with
  | setProxy env proxy =>
    revert h
    unfold Request.succeeds Request.toEvent Request.written step passesValidation isDirect
      handleSetProxy handleSetProxy.apply proxySettingsSet
    cases h1 : truthy proxy <;> cases h2 : truthy (getProp proxy "ip") <;>
      cases h3 : strictEqStr (getProp proxy "id") "direct" <;>
      cases h4 : strictEqStr (getProp proxy "ip") "DIRECT" <;>
      cases h5 : truthy (getProp proxy "port") <;>
      cases h6 : truthy env.runtimeLastError <;>
      simp [storageSet, List.lookup, h1, h2, h3, h4, h5, h6]
  | clearProxy env =>
    revert h
    unfold Request.succeeds Request.toEvent Request.written step handleClearProxy
      proxySettingsSet
    cases h6 : truthy env.runtimeLastError <;> simp [storageSet, List.lookup, h6]

/-- A request that does not succeed leaves the whole store as it was. -/
theorem step_of_not_succeeds (r : Request) (w : World) (h : r.succeeds = false) :
    (step w r.toEvent).storage = w.storage := by
  cases r with
  | setProxy env proxy =>
    revert h
    unfold Request.succeeds Request.toEvent step passesValidation isDirect
      handleSetProxy handleSetProxy.apply proxySettingsSet
    cases h1 : truthy proxy <;> cases h2 : truthy (getProp proxy "ip") <;>
      cases h3 : strictEqStr (getProp proxy "id") "direct" <;>
      cases h4 : strictEqStr (getProp proxy "ip") "DIRECT" <;>
      cases h5 : truthy (getProp proxy "port") <;>
      cases h6 : truthy env.runtimeLastError <;>
      simp [h1, h2, h3, h4, h5, h6]
  | clearProxy env =>
    revert h
    unfold Request.succeeds Request.toEvent step handleClearProxy proxySettingsSet
    cases h6 : truthy env.runtimeLastError <;> simp [h6]

/-- What a succeeding request writes is reported unchanged by `getProxyStatus`. -/
theorem jsOr_written (r : Request) (h : r.succeeds = true) :
    jsOr r.written.1 (.bool false) = r.written.1
      ∧ jsOr r.written.2 .null = r.written.2 := by
  cases r with
  | setProxy env proxy =>
    have hp : truthy proxy = true := by
      revert h
      unfold Request.succeeds passesValidation
      cases h1 : truthy proxy <;> simp [h1]
    exact ⟨jsOr_bool_false _, jsOr_of_truthy _ _ hp⟩
  | clearProxy env => exact ⟨jsOr_bool_false _, rfl⟩

theorem run_append_singleton (w : World) (events : List Event) (e : Event) :
    run w (events ++ [e]) = step (run w events) e := by
  simp [run, List.foldl_append]

theorem lastSucceeded_append_singleton (requests : List Request) (r : Request) :
    lastSucceeded (requests ++ [r])
      = if r.succeeds = true then some r else lastSucceeded requests := by
  cases h : r.succeeds <;> simp [lastSucceeded, List.find?_cons, h]

/-- The stored `proxyActive` and `selectedProxy` after a sequence of requests. -/
theorem run_requests_storage (w : World) (requests : List Request) :
    (∀ r, lastSucceeded requests = some r →
        r.succeeds = true
          ∧ (run w (requests.map Request.toEvent)).storage "proxyActive" = r.written.1
          ∧ (run w (requests.map Request.toEvent)).storage "selectedProxy" = r.written.2)
      ∧ (lastSucceeded requests = none →
          (run w (requests.map Request.toEvent)).storage = w.storage) := by
  induction requests using List.reverseRecOn with
  | nil => exact ⟨fun r h => by simp [lastSucceeded] at h, fun _ => rfl⟩
  | append_singleton l a ih =>
    rw [List.map_append, List.map_singleton, run_append_singleton,
      lastSucceeded_append_singleton]
    cases h : a.succeeds
    · simp only [Bool.false_eq_true, if_false]
      have hs := step_of_not_succeeds a (run w (l.map Request.toEvent)) h
      refine ⟨fun r hr => ?_, fun hn => ?_⟩
      · rw [hs]
        exact ih.1 r hr
      · rw [hs]
        exact ih.2 hn
    · simp only [if_true]
      refine ⟨fun r hr => ?_, fun hn => by simp at hn⟩
      have hra : a = r := Option.some.inj hr
      subst hra
      exact ⟨h, step_of_succeeds a _ h⟩

/-- C11, as stated, fails: from the empty store, after the one request `clearProxy`
that the platform rejects, no request has succeeded and `getProxyStatus` returns
`isActive` equal to `false` and `activeProxy` equal to `null`, which are not the
(absent) `proxyActive` and `selectedProxy` of the initial state. -/
theorem getProxyStatus_initial_defaults_counterexample :
    lastSucceeded [Request.clearProxy rejecting] = none
      ∧ emptyWorld.storage "proxyActive" = .undefined
      ∧ emptyWorld.storage "selectedProxy" = .undefined
      ∧ getProp (handleGetProxyStatus
            (run emptyWorld ([Request.clearProxy rejecting].map Request.toEvent))).2 "isActive"
          = .bool false
      ∧ getProp (handleGetProxyStatus
            (run emptyWorld ([Request.clearProxy rejecting].map Request.toEvent))).2
            "activeProxy" = .null
      ∧ getProp (handleGetProxyStatus
            (run emptyWorld ([Request.clearProxy rejecting].map Request.toEvent))).2 "isActive"
          ≠ emptyWorld.storage "proxyActive"
      ∧ getProp (handleGetProxyStatus
            (run emptyWorld ([Request.clearProxy rejecting].map Request.toEvent))).2
            "activeProxy" ≠ emptyWorld.storage "selectedProxy" := by
  have h1 : getProp (handleGetProxyStatus
      (run emptyWorld ([Request.clearProxy rejecting].map Request.toEvent))).2 "isActive"
        = .bool false := rfl
  have h2 : getProp (handleGetProxyStatus
      (run emptyWorld ([Request.clearProxy rejecting].map Request.toEvent))).2 "activeProxy"
        = .null := rfl
  have h3 : emptyWorld.storage "proxyActive" = .undefined := rfl
  have h4 : emptyWorld.storage "selectedProxy" = .undefined := rfl
  refine ⟨rfl, h3, h4, h1, h2, ?_, ?_⟩
  · rw [h1, h3]
    simp
  · rw [h2, h4]
    simp

/-- C11, amended: for every initial stored state and every finite sequence of
`setProxy` and `clearProxy` requests handled one after another (the platform accepting
or rejecting each arbitrarily), the `isActive` and `activeProxy` returned by a following
`getProxyStatus` are exactly the `proxyActive` and `selectedProxy` written by the last
request of the sequence that succeeded, or, if none succeeded, what `getProxyStatus`
reports for the initial state: its `proxyActive` or `false`, its `selectedProxy` or
`null`. -/
theorem getProxyStatus_last_write_wins (w : World) (requests : List Request) :
    (∀ r, lastSucceeded requests = some r →
        getProp (handleGetProxyStatus (run w (requests.map Request.toEvent))).2 "isActive"
            = r.written.1
          ∧ getProp (handleGetProxyStatus (run w (requests.map Request.toEvent))).2
              "activeProxy" = r.written.2)
      ∧ (lastSucceeded requests = none →
          getProp (handleGetProxyStatus (run w (requests.map Request.toEvent))).2 "isActive"
              = jsOr (w.storage "proxyActive") (.bool false)
            ∧ getProp (handleGetProxyStatus (run w (requests.map Request.toEvent))).2
                "activeProxy" = jsOr (w.storage "selectedProxy") .null) := by
  rw [handleGetProxyStatus_isActive, handleGetProxyStatus_activeProxy]
  refine ⟨fun r hr => ?_, fun hn => ?_⟩
  · obtain ⟨hs, h1, h2⟩ := (run_requests_storage w requests).1 r hr
    rw [h1, h2]
    exact jsOr_written r hs
  · rw [(run_requests_storage w requests).2 hn]
    exact ⟨rfl, rfl⟩

/-- Witness of C11 amended: `demo1` is set, a rejected `clearProxy` follows, and the
status still reports `demo1` as active; with only the rejected request the status is
that of the initial state. -/
theorem getProxyStatus_last_write_wins_witness :
    (getProp (handleGetProxyStatus (run emptyWorld
          ([Request.setProxy accepting demo1, Request.clearProxy rejecting].map
            Request.toEvent))).2 "isActive" = .bool true
      ∧ getProp (handleGetProxyStatus (run emptyWorld
          ([Request.setProxy accepting demo1, Request.clearProxy rejecting].map
            Request.toEvent))).2 "activeProxy" = demo1)
      ∧ (getProp (handleGetProxyStatus (run activeWorld
          ([Request.clearProxy rejecting].map Request.toEvent))).2 "isActive" = .bool true
        ∧ getProp (handleGetProxyStatus (run activeWorld
          ([Request.clearProxy rejecting].map Request.toEvent))).2 "activeProxy" = demo1) :=
  ⟨(getProxyStatus_last_write_wins emptyWorld
      [Request.setProxy accepting demo1, Request.clearProxy rejecting]).1
      (Request.setProxy accepting demo1) rfl,
   (getProxyStatus_last_write_wins activeWorld [Request.clearProxy rejecting]).2 rfl⟩

/-! ## Events that are not setProxy or clearProxy -/

theorem handleGetCurrentIP_world (net : Net) (w : World) :
    (handleGetCurrentIP net w).1 = w := by
  unfold handleGetCurrentIP
  cases net.outcome with
  | body data => cases h : isNullish data <;> simp [h]
  | _ => rfl

theorem handleTestConnection_world (net : Net) (w : World) :
    (handleTestConnection net w).1 = w := by
  unfold handleTestConnection
  cases net.outcome with
  | body data => cases h : isNullish data <;> simp [h]
  | _ => rfl

theorem onStartup_world (w : World) : onStartup w = w := by
  simp [onStartup]

theorem onTabUpdated_world (changeInfo tab : JsVal) (w : World) :
    onTabUpdated changeInfo tab w = w := by
  simp [onTabUpdated]

/-- A message whose action is neither `setProxy` nor `clearProxy` leaves the world as
it was. -/
theorem onMessage_other_world (env : Env) (net : Net) (request : JsVal) (w : World)
    (h1 : strictEqStr (getProp request "action") "setProxy" = false)
    (h2 : strictEqStr (getProp request "action") "clearProxy" = false) :
    (onMessage env net request w).1 = w := by
  unfold onMessage
  simp only [h1, h2, Bool.false_eq_true, if_false]
  split_ifs <;>
    first
      | rfl
      | exact handleGetCurrentIP_world net w
      | exact handleTestConnection_world net w

/-- C12, as stated, fails: a platform proxy-error event is neither a `setProxy` nor a
`clearProxy` request, and it changes the stored `proxyActive` (from `true` to `false`)
and the stored `lastError` (from absent to the recorded error). -/
theorem proxyError_mutates_state_counterexample :
    ControllerEvent.isSetOrClear
        (.proxyError "2024-01-01T00:00:00.000Z" proxyErrorDetails) = false
      ∧ activeWorld.storage "proxyActive" = .bool true
      ∧ (ControllerEvent.handle activeWorld
            (.proxyError "2024-01-01T00:00:00.000Z" proxyErrorDetails)).storage "proxyActive"
          = .bool false
      ∧ activeWorld.storage "lastError" = .undefined
      ∧ (ControllerEvent.handle activeWorld
            (.proxyError "2024-01-01T00:00:00.000Z" proxyErrorDetails)).storage "lastError"
          = .obj [("message", .str "net::ERR_PROXY_CONNECTION_FAILED"),
                  ("timestamp", .str "2024-01-01T00:00:00.000Z")] :=
  ⟨rfl, rfl, rfl, rfl, rfl⟩

/-- C12, amended: every event other than a `setProxy` or `clearProxy` request and other
than a platform proxy-error event (`getProxyStatus`, `fetchProxies`, `getCurrentIP`,
`testConnection`, an unrecognised action, browser startup, a tab update) leaves
`proxyActive`, `selectedProxy`, `lastError`, `lastConnected` and `lastDisconnected`
unchanged; a platform proxy-error event leaves `selectedProxy`, `lastConnected` and
`lastDisconnected` unchanged. -/
theorem other_events_keep_proxy_state (e : ControllerEvent) (w : World)
    (h : e.isSetOrClear = false) :
    (e.isProxyError = false →
        (e.handle w).storage "proxyActive" = w.storage "proxyActive"
          ∧ (e.handle w).storage "selectedProxy" = w.storage "selectedProxy"
          ∧ (e.handle w).storage "lastError" = w.storage "lastError"
          ∧ (e.handle w).storage "lastConnected" = w.storage "lastConnected"
          ∧ (e.handle w).storage "lastDisconnected" = w.storage "lastDisconnected")
      ∧ (e.handle w).storage "selectedProxy" = w.storage "selectedProxy"
      ∧ (e.handle w).storage "lastConnected" = w.storage "lastConnected"
      ∧ (e.handle w).storage "lastDisconnected" = w.storage "lastDisconnected" := by
  cases e with
  | message env net request =>
    have hw : (onMessage env net request w).1 = w := by
      unfold ControllerEvent.isSetOrClear at h
      cases h1 : strictEqStr (getProp request "action") "setProxy" <;>
        cases h2 : strictEqStr (getProp request "action") "clearProxy" <;>
        simp [h1, h2] at h
      exact onMessage_other_world env net request w h1 h2
    simp [ControllerEvent.handle, hw]
  | proxyError now details =>
    simp [ControllerEvent.handle, ControllerEvent.isProxyError, onProxyError, storageSet,
      List.lookup]
  | startup => simp [ControllerEvent.handle, onStartup_world]
  | tabUpdated changeInfo tab => simp [ControllerEvent.handle, onTabUpdated_world]

/-- Witness of C12 amended: a `getCurrentIP` message handled while `demo1` is active. -/
theorem other_events_keep_proxy_state_witness :
    (ControllerEvent.handle activeWorld
        (.message accepting ipAnswer (.obj [("action", .str "getCurrentIP")]))).storage
        "proxyActive" = activeWorld.storage "proxyActive"
      ∧ (ControllerEvent.handle activeWorld
        (.message accepting ipAnswer (.obj [("action", .str "getCurrentIP")]))).storage
        "selectedProxy" = activeWorld.storage "selectedProxy"
      ∧ (ControllerEvent.handle activeWorld
        (.message accepting ipAnswer (.obj [("action", .str "getCurrentIP")]))).storage
        "lastError" = activeWorld.storage "lastError"
      ∧ (ControllerEvent.handle activeWorld
        (.message accepting ipAnswer (.obj [("action", .str "getCurrentIP")]))).storage
        "lastConnected" = activeWorld.storage "lastConnected"
      ∧ (ControllerEvent.handle activeWorld
        (.message accepting ipAnswer (.obj [("action", .str "getCurrentIP")]))).storage
        "lastDisconnected" = activeWorld.storage "lastDisconnected" :=
  (other_events_keep_proxy_state
    (.message accepting ipAnswer (.obj [("action", .str "getCurrentIP")])) activeWorld
    (by decide)).1 (by decide)

/-! ## The platform's proxy-error event -/

/-- C13: for every prior state and every proxy-error event whose `error` is the text
`e`, after the listener has run the store holds `proxyActive` equal to `false` and
`lastError` equal to `{message: e, timestamp: now}`, while `selectedProxy`,
`lastConnected`, `lastDisconnected`, `installDate` and every key other than
`proxyActive` and `lastError` are unchanged; no platform call is made. -/
theorem onProxyError_effect (now e : String) (details : JsVal) (w : World)
    (h : getProp details "error" = .str e) :
    (onProxyError now details w).storage "proxyActive" = .bool false
      ∧ (onProxyError now details w).storage "lastError"
          = .obj [("message", .str e), ("timestamp", .str now)]
      ∧ (onProxyError now details w).storage "selectedProxy" = w.storage "selectedProxy"
      ∧ (onProxyError now details w).storage "lastConnected" = w.storage "lastConnected"
      ∧ (onProxyError now details w).storage "lastDisconnected"
          = w.storage "lastDisconnected"
      ∧ (onProxyError now details w).storage "installDate" = w.storage "installDate"
      ∧ (∀ k, k ≠ "proxyActive" → k ≠ "lastError" →
          (onProxyError now details w).storage k = w.storage k)
      ∧ (onProxyError now details w).proxyCalls = w.proxyCalls := by
  refine ⟨by simp [onProxyError, storageSet, List.lookup],
    by simp [onProxyError, storageSet, List.lookup, h],
    by simp [onProxyError, storageSet, List.lookup],
    by simp [onProxyError, storageSet, List.lookup],
    by simp [onProxyError, storageSet, List.lookup],
    by simp [onProxyError, storageSet, List.lookup], ?_, rfl⟩
  intro k h1 h2
  have e1 : (k == "proxyActive") = false := beq_eq_false_iff_ne.mpr h1
  have e2 : (k == "lastError") = false := beq_eq_false_iff_ne.mpr h2
  simp [onProxyError, storageSet, List.lookup, e1, e2]

/-- Witness of C13: a connection failure reported while `demo1` is active. -/
theorem onProxyError_effect_witness :
    activeWorld.storage "proxyActive" = .bool true
      ∧ (onProxyError "2024-01-01T00:00:00.000Z" proxyErrorDetails activeWorld).storage
          "proxyActive" = .bool false
      ∧ (onProxyError "2024-01-01T00:00:00.000Z" proxyErrorDetails activeWorld).storage
          "lastError"
          = .obj [("message", .str "net::ERR_PROXY_CONNECTION_FAILED"),
                  ("timestamp", .str "2024-01-01T00:00:00.000Z")]
      ∧ (onProxyError "2024-01-01T00:00:00.000Z" proxyErrorDetails activeWorld).storage
          "selectedProxy" = demo1 :=
  ⟨rfl,
   (onProxyError_effect "2024-01-01T00:00:00.000Z" "net::ERR_PROXY_CONNECTION_FAILED"
      proxyErrorDetails activeWorld rfl).1,
   (onProxyError_effect "2024-01-01T00:00:00.000Z" "net::ERR_PROXY_CONNECTION_FAILED"
      proxyErrorDetails activeWorld rfl).2.1,
   (onProxyError_effect "2024-01-01T00:00:00.000Z" "net::ERR_PROXY_CONNECTION_FAILED"
      proxyErrorDetails activeWorld rfl).2.2.1⟩

/-! ## getProxyStatus and fetchProxies -/

/-- C14: for every stored state, absent keys included, `handleGetProxyStatus` replies
with exactly the three fields `isActive`, `activeProxy` and `lastError`: the stored
`proxyActive`, `selectedProxy` and `lastError` when they are truthy, and `false`,
`null` and `null` when they are absent or falsy. The reply carries no `error` and no
`success` field, and the world is left as it was. -/
theorem handleGetProxyStatus_snapshot (w : World) :
    (handleGetProxyStatus w).1 = w
      ∧ (handleGetProxyStatus w).2
          = .obj [("isActive",
                    if truthy (w.storage "proxyActive") = true then w.storage "proxyActive"
                    else .bool false),
                  ("activeProxy",
                    if truthy (w.storage "selectedProxy") = true then w.storage "selectedProxy"
                    else .null),
                  ("lastError",
                    if truthy (w.storage "lastError") = true then w.storage "lastError"
                    else .null)]
      ∧ getProp (handleGetProxyStatus w).2 "error" = .undefined
      ∧ getProp (handleGetProxyStatus w).2 "success" = .undefined :=
  ⟨rfl, rfl, rfl, rfl⟩

/-- C15: `handleFetchProxies` always replies `success: true` with the same list of
three descriptors in the same order (`direct`/`DIRECT`/0, `demo-1`/`127.0.0.1`/8080,
`demo-2`/`proxy.example.com`/3128), whatever the stored state; it leaves the store and
the log of platform calls as they were, so a second call answers the same. -/
theorem handleFetchProxies_fixed (w : World) :
    (handleFetchProxies w).1 = w
      ∧ (handleFetchProxies w).2
          = .obj [("success", .bool true),
                  ("proxies", .arr
                    [.obj [("id", .str "direct"), ("ip", .str "DIRECT"), ("port", .num 0),
                           ("country", .str "Direct Connection (No Proxy)"),
                           ("protocol", .str "direct"), ("anonymity", .str "none")],
                     .obj [("id", .str "demo-1"), ("ip", .str "127.0.0.1"),
                           ("port", .num 8080), ("country", .str "Local Test Server"),
                           ("protocol", .str "http"), ("anonymity", .str "transparent")],
                     .obj [("id", .str "demo-2"), ("ip", .str "proxy.example.com"),
                           ("port", .num 3128), ("country", .str "Demo Proxy Server"),
                           ("protocol", .str "http"), ("anonymity", .str "anonymous")]])]
      ∧ handleFetchProxies (handleFetchProxies w).1 = handleFetchProxies w
      ∧ (∀ w2 : World, (handleFetchProxies w2).2 = (handleFetchProxies w).2) :=
  ⟨rfl, rfl, rfl, fun _ => rfl⟩

/-! ## The fetch-based handlers -/

/-- C16, as stated, fails: when the lookup returns an ok response whose body parses
(to `null`), the reply carries the fallback `ipInfo`, whose `ip` is not read from the
body: `data.ip` throws and the `catch` callback answers. -/
theorem handleGetCurrentIP_null_body_counterexample :
    nullAnswer.outcome = .body .null
      ∧ getProp (handleGetCurrentIP nullAnswer emptyWorld).2 "ipInfo"
          = .obj [("ip", .str "Unable to detect"), ("location", .str "Unknown")]
      ∧ getProp (getProp (handleGetCurrentIP nullAnswer emptyWorld).2 "ipInfo") "ip"
          ≠ getProp .null "ip" := by
  refine ⟨rfl, rfl, ?_⟩
  have h : getProp (getProp (handleGetCurrentIP nullAnswer emptyWorld).2 "ipInfo") "ip"
      = .str "Unable to detect" := rfl
  rw [h]
  simp [getProp]

/-- C16, amended: for every outcome of the lookup, `handleGetCurrentIP` replies with
`success: true` and an `ipInfo` object that has both `ip` and `location`, and leaves
the world as it was. When `fetch` rejects, the response is not ok, the body fails to
parse, or the body parses to `null`, `ipInfo` is exactly
`{ip:'Unable to detect', location:'Unknown'}`; when the body parses to any other
value, `ipInfo.ip` is the `ip` field of the body. -/
theorem handleGetCurrentIP_reply (t : String) (w : World) :
    (∀ m, handleGetCurrentIP ⟨.rejected m, t⟩ w
        = (w, .obj [("success", .bool true),
                    ("ipInfo", .obj [("ip", .str "Unable to detect"),
                                     ("location", .str "Unknown")])]))
      ∧ handleGetCurrentIP ⟨.notOk, t⟩ w
          = (w, .obj [("success", .bool true),
                      ("ipInfo", .obj [("ip", .str "Unable to detect"),
                                       ("location", .str "Unknown")])])
      ∧ (∀ m, handleGetCurrentIP ⟨.badBody m, t⟩ w
          = (w, .obj [("success", .bool true),
                      ("ipInfo", .obj [("ip", .str "Unable to detect"),
                                       ("location", .str "Unknown")])]))
      ∧ (∀ data, handleGetCurrentIP ⟨.body data, t⟩ w
          = (w, if isNullish data = true then
                  .obj [("success", .bool true),
                        ("ipInfo", .obj [("ip", .str "Unable to detect"),
                                         ("location", .str "Unknown")])]
                else
                  .obj [("success", .bool true),
                        ("ipInfo", .obj [("ip", getProp data "ip"),
                                         ("location",
                                           .str "Location lookup disabled for privacy")])])) := by
  refine ⟨fun _ => rfl, rfl, fun _ => rfl, fun data => ?_⟩
  unfold handleGetCurrentIP
  cases h : isNullish data <;> simp [h, ipFallback]

/-- C17, as stated, fails: when the echo call returns an ok response whose body parses
(to `null`), `connected` is `false`: `data.origin` throws and the `catch` callback
answers with the message of that error. -/
theorem handleTestConnection_null_body_counterexample :
    nullAnswer.outcome = .body .null
      ∧ getProp (handleTestConnection nullAnswer emptyWorld).2 "connected" = .bool false
      ∧ getProp (handleTestConnection nullAnswer emptyWorld).2 "message"
          = .str "Connection test failed: Cannot read properties of null" :=
  ⟨rfl, rfl, by simp [handleTestConnection, nullAnswer, isNullish, testFailed, getProp_obj,
    List.lookup]⟩

/-- C17, amended: for every outcome of the echo call `handleTestConnection` replies
with `success: true` and leaves the world as it was; `connected` is `true` exactly when
the call returned an ok response whose body parsed to a value other than `null` (then
`ip` is the body's `origin` and `message` is `'Connection successful'`), and otherwise
`connected` is `false` and `message` is `'Connection test failed: '` followed by the
message of the error: that of the rejection, `'Connection test failed'` for a response
that is not ok, that of the parse error, or that of the `TypeError` of `data.origin`. -/
theorem handleTestConnection_reply (t : String) (w : World) :
    (∀ m, handleTestConnection ⟨.rejected m, t⟩ w
        = (w, .obj [("success", .bool true), ("connected", .bool false),
                    ("message", .str ("Connection test failed: " ++ m))]))
      ∧ handleTestConnection ⟨.notOk, t⟩ w
          = (w, .obj [("success", .bool true), ("connected", .bool false),
                      ("message",
                        .str ("Connection test failed: " ++ "Connection test failed"))])
      ∧ (∀ m, handleTestConnection ⟨.badBody m, t⟩ w
          = (w, .obj [("success", .bool true), ("connected", .bool false),
                      ("message", .str ("Connection test failed: " ++ m))]))
      ∧ (∀ data, handleTestConnection ⟨.body data, t⟩ w
          = (w, if isNullish data = true then
                  .obj [("success", .bool true), ("connected", .bool false),
                        ("message", .str ("Connection test failed: " ++ t))]
                else
                  .obj [("success", .bool true), ("connected", .bool true),
                        ("ip", getProp data "origin"),
                        ("message", .str "Connection successful")])) := by
  refine ⟨fun _ => rfl, rfl, fun _ => rfl, fun data => ?_⟩
  unfold handleTestConnection
  cases h : isNullish data <;> simp [h, testFailed]

/-! ## Unrecognised actions -/

/-- C18, as stated, fails: to the content script's `reportNetworkError` and
`ipCheckDetected` notifications the dispatcher replies `{error:'Unknown action'}`, an
object without a `success` field, so `success` is not `false`. -/
theorem onMessage_unknown_no_success_counterexample :
    (onMessage accepting ipAnswer reportNetworkError emptyWorld).2
        = some (.obj [("error", .str "Unknown action")])
      ∧ (onMessage accepting ipAnswer ipCheckDetected emptyWorld).2
        = some (.obj [("error", .str "Unknown action")])
      ∧ getProp (.obj [("error", .str "Unknown action")]) "success" = .undefined
      ∧ getProp (.obj [("error", .str "Unknown action")]) "success" ≠ .bool false := by
  refine ⟨rfl, rfl, rfl, ?_⟩
  simp [getProp, List.lookup]

/-- C18, amended: for every request other than `null` and `undefined` whose action is
not one of `setProxy`, `clearProxy`, `getProxyStatus`, `fetchProxies`, `getCurrentIP`,
`testConnection`, the dispatcher replies `{error:'Unknown action'}`, an error string
without a `success` field, and changes neither the store nor the log of platform
calls. -/
theorem onMessage_unknown_action (env : Env) (net : Net) (request : JsVal) (w : World)
    (hn : isNullish request = false)
    (h1 : getProp request "action" ≠ .str "setProxy")
    (h2 : getProp request "action" ≠ .str "clearProxy")
    (h3 : getProp request "action" ≠ .str "getProxyStatus")
    (h4 : getProp request "action" ≠ .str "fetchProxies")
    (h5 : getProp request "action" ≠ .str "getCurrentIP")
    (h6 : getProp request "action" ≠ .str "testConnection") :
    (onMessage env net request w).2 = some (.obj [("error", .str "Unknown action")])
      ∧ getProp (.obj [("error", .str "Unknown action")]) "success" = .undefined
      ∧ (onMessage env net request w).1.storage = w.storage
      ∧ (onMessage env net request w).1.proxyCalls = w.proxyCalls := by
  have e1 := (strictEqStr_eq_false_iff _ _).mpr h1
  have e2 := (strictEqStr_eq_false_iff _ _).mpr h2
  have e3 := (strictEqStr_eq_false_iff _ _).mpr h3
  have e4 := (strictEqStr_eq_false_iff _ _).mpr h4
  have e5 := (strictEqStr_eq_false_iff _ _).mpr h5
  have e6 := (strictEqStr_eq_false_iff _ _).mpr h6
  unfold onMessage
  simp [hn, e1, e2, e3, e4, e5, e6, getProp_obj, List.lookup]

/-- Witness of C18 amended: the `ipCheckDetected` notification received while `demo1`
is active. -/
theorem onMessage_unknown_action_witness :
    (onMessage accepting ipAnswer ipCheckDetected activeWorld).2
        = some (.obj [("error", .str "Unknown action")])
      ∧ getProp (.obj [("error", .str "Unknown action")]) "success" = .undefined
      ∧ (onMessage accepting ipAnswer ipCheckDetected activeWorld).1.storage
          = activeWorld.storage
      ∧ (onMessage accepting ipAnswer ipCheckDetected activeWorld).1.proxyCalls
          = activeWorld.proxyCalls :=
  onMessage_unknown_action accepting ipAnswer ipCheckDetected activeWorld rfl
    (by simp [ipCheckDetected, getProp, List.lookup])
    (by simp [ipCheckDetected, getProp, List.lookup])
    (by simp [ipCheckDetected, getProp, List.lookup])
    (by simp [ipCheckDetected, getProp, List.lookup])
    (by simp [ipCheckDetected, getProp, List.lookup])
    (by simp [ipCheckDetected, getProp, List.lookup])

/-! ## The content script's fetch wrapper -/

theorem includesChars_iff_infix (pat s : List Char) :
    includesChars pat s = true ↔ pat <:+: s := by
  induction s with
  | nil => simp [includesChars, List.isEmpty_iff]
  | cons c cs ih =>
    simp [includesChars, List.infix_cons_iff, ih]

/-- The test of the wrapper holds exactly for a string that contains one of the four
names. -/
theorem isIpCheckUrl_iff (url : JsVal) :
    isIpCheckUrl url = true ↔
      ∃ u, url = .str u ∧
        ("ipify".data <:+: u.data ∨ "ip-api".data <:+: u.data
          ∨ "httpbin".data <:+: u.data ∨ "whatismyip".data <:+: u.data) := by
  cases url <;> simp [isIpCheckUrl, jsIncludes, includesChars_iff_infix, or_assoc]

/-- While `chrome.runtime.sendMessage` returns, or the first argument is not
recognised, the wrapper is a passive observer: it calls the original `fetch` once with
exactly the same arguments and returns its result, and it sends an `ipCheckDetected`
notification (with the URL and the current time) if and only if the first argument is a
string that contains one of `'ipify'`, `'ip-api'`, `'httpbin'` or `'whatismyip'`. -/
theorem fetch_wrapper_passive_unless_send_throws {R : Type} (now : String)
    (sendThrows : Option String) (originalFetch : List JsVal → R)
    (args : List JsVal) (log : PageLog)
    (h : sendThrows = none ∨ isIpCheckUrl (args.head?.getD .undefined) = false) :
    (window.fetch now sendThrows originalFetch args log).2 = .ok (originalFetch args)
      ∧ (window.fetch now sendThrows originalFetch args log).1.fetchCalls
          = log.fetchCalls ++ [args]
      ∧ (window.fetch now sendThrows originalFetch args log).1.sent
          = (if isIpCheckUrl (args.head?.getD .undefined) = true then
              log.sent ++ [.obj [("action", .str "ipCheckDetected"),
                                 ("url", args.head?.getD .undefined),
                                 ("timestamp", .str now)]]
             else log.sent)
      ∧ ((window.fetch now sendThrows originalFetch args log).1.sent ≠ log.sent ↔
          ∃ u, args.head? = some (.str u) ∧
            ("ipify".data <:+: u.data ∨ "ip-api".data <:+: u.data
              ∨ "httpbin".data <:+: u.data ∨ "whatismyip".data <:+: u.data)) := by
  have hsent : (window.fetch now sendThrows originalFetch args log).1.sent
      = (if isIpCheckUrl (args.head?.getD .undefined) = true then
          log.sent ++ [.obj [("action", .str "ipCheckDetected"),
                             ("url", args.head?.getD .undefined),
                             ("timestamp", .str now)]]
         else log.sent) := by
    unfold window.fetch
    rcases h with h | h
    · subst h
      cases hu : isIpCheckUrl (args.head?.getD .undefined) <;> simp [hu]
    · simp [h]
  refine ⟨?_, ?_, hsent, ?_⟩
  · unfold window.fetch
    rcases h with h | h
    · subst h
      cases hu : isIpCheckUrl (args.head?.getD .undefined) <;> simp [hu]
    · simp [h]
  · unfold window.fetch
    rcases h with h | h
    · subst h
      cases hu : isIpCheckUrl (args.head?.getD .undefined) <;> simp [hu]
    · simp [h]
  · rw [hsent]
    cases hu : isIpCheckUrl (args.head?.getD .undefined)
    · have hno := hu
      rw [← Bool.not_eq_true, isIpCheckUrl_iff] at hno
      simp only [Bool.false_eq_true, if_false, ne_eq, not_true_eq_false, false_iff]
      rintro ⟨u, hu2, hin⟩
      exact hno ⟨u, by simp [hu2], hin⟩
    · have hyes := (isIpCheckUrl_iff _).mp hu
      obtain ⟨u, hu2, hin⟩ := hyes
      simp only [if_true, ne_eq, List.append_right_eq_self, List.cons_ne_self,
        not_false_eq_true, true_iff]
      refine ⟨u, ?_, hin⟩
      cases hh : args.head? with
      | none => simp [hh] at hu2
      | some v =>
        simp [hh] at hu2
        simp [hu2]

/-- When the first argument is recognised and `chrome.runtime.sendMessage` throws, the
wrapper throws the same error, sends nothing and does not call the original `fetch`. -/
theorem fetch_wrapper_throws_with_send {R : Type} (now message : String)
    (originalFetch : List JsVal → R) (args : List JsVal) (log : PageLog)
    (h : isIpCheckUrl (args.head?.getD .undefined) = true) :
    window.fetch now (some message) originalFetch args log = (log, .error message) := by
  unfold window.fetch
  simp [h]

/-- C19, evaluated at the failing input: the page calls
`fetch('https://api.ipify.org?format=json')` while `chrome.runtime.sendMessage` throws
`'Extension context invalidated.'`. The wrapper throws that error instead of returning
the result of the original `fetch`, and the original `fetch` is not called at all. -/
theorem fetch_wrapper_breaks_fetch_when_send_throws :
    isIpCheckUrl (.str "https://api.ipify.org?format=json") = true
      ∧ (window.fetch "2024-01-01T00:00:00.000Z" (some "Extension context invalidated.")
            (fun _ => JsVal.str "the promise of the original fetch")
            [.str "https://api.ipify.org?format=json"] emptyPageLog).2
          = .error "Extension context invalidated."
      ∧ (window.fetch "2024-01-01T00:00:00.000Z" (some "Extension context invalidated.")
            (fun _ => JsVal.str "the promise of the original fetch")
            [.str "https://api.ipify.org?format=json"] emptyPageLog).1.fetchCalls = []
      ∧ (window.fetch "2024-01-01T00:00:00.000Z" (some "Extension context invalidated.")
            (fun _ => JsVal.str "the promise of the original fetch")
            [.str "https://api.ipify.org?format=json"] emptyPageLog).1.sent = [] := by
  have h : isIpCheckUrl (.str "https://api.ipify.org?format=json") = true := by decide
  have hw := fetch_wrapper_throws_with_send "2024-01-01T00:00:00.000Z"
    "Extension context invalidated." (fun _ => JsVal.str "the promise of the original fetch")
    [.str "https://api.ipify.org?format=json"] emptyPageLog h
  rw [hw]
  exact ⟨h, rfl, rfl, rfl⟩

/-- The wrapper's test on three concrete first arguments. -/
theorem isIpCheckUrl_examples :
    isIpCheckUrl (.str "https://api.ipify.org?format=json") = true
      ∧ isIpCheckUrl (.str "https://example.com/") = false
      ∧ isIpCheckUrl (.obj [("url", .str "https://httpbin.org/ip")]) = false :=
  ⟨by decide, by decide, by decide⟩

/-! ## The recorded error outlives reconnects -/

theorem handleSetProxy_lastError (env : Env) (proxy : JsVal) (w : World) :
    (handleSetProxy env proxy w).1.storage "lastError" = w.storage "lastError" := by
  unfold handleSetProxy handleSetProxy.apply proxySettingsSet
  cases h1 : truthy proxy <;> cases h2 : truthy (getProp proxy "ip") <;>
    cases h3 : strictEqStr (getProp proxy "id") "direct" <;>
    cases h4 : strictEqStr (getProp proxy "ip") "DIRECT" <;>
    cases h5 : truthy (getProp proxy "port") <;>
    cases h6 : truthy env.runtimeLastError <;>
    simp [storageSet, List.lookup, h1, h2, h3, h4, h5, h6]

theorem handleClearProxy_lastError (env : Env) (w : World) :
    (handleClearProxy env w).1.storage "lastError" = w.storage "lastError" := by
  unfold handleClearProxy proxySettingsSet
  cases h6 : truthy env.runtimeLastError <;> simp [storageSet, List.lookup, h6]

theorem run_requests_lastError (requests : List Request) (w : World) :
    (run w (requests.map Request.toEvent)).storage "lastError" = w.storage "lastError" := by
  induction requests generalizing w with
  | nil => rfl
  | cons r rest ih =>
    have hstep : (step w r.toEvent).storage "lastError" = w.storage "lastError" := by
      cases r with
      | setProxy env proxy => exact handleSetProxy_lastError env proxy w
      | clearProxy env => exact handleClearProxy_lastError env w
    have hrun : run w ((r :: rest).map Request.toEvent)
        = run (step w r.toEvent) (rest.map Request.toEvent) := rfl
    rw [hrun, ih, hstep]

/-- C20: neither `setProxy` nor `clearProxy` changes the stored `lastError`, whatever
the prior state, the descriptor and the platform's answer; hence after a proxy-error
event and any sequence of `setProxy` and `clearProxy` requests, succeeding or not,
`getProxyStatus` still reports the `lastError` that the event recorded. -/
theorem lastError_survives_requests (w : World) :
    (∀ env proxy,
        (handleSetProxy env proxy w).1.storage "lastError" = w.storage "lastError")
      ∧ (∀ env, (handleClearProxy env w).1.storage "lastError" = w.storage "lastError")
      ∧ (∀ (now : String) (details : JsVal) (requests : List Request),
          getProp (handleGetProxyStatus
              (run (onProxyError now details w) (requests.map Request.toEvent))).2 "lastError"
            = .obj [("message", getProp details "error"), ("timestamp", .str now)]) := by
  refine ⟨fun env proxy => handleSetProxy_lastError env proxy w,
    fun env => handleClearProxy_lastError env w, fun now details requests => ?_⟩
  rw [handleGetProxyStatus_lastError, run_requests_lastError]
  have h : (onProxyError now details w).storage "lastError"
      = .obj [("message", getProp details "error"), ("timestamp", .str now)] := by
    simp [onProxyError, storageSet, List.lookup]
  rw [h]
  exact jsOr_of_truthy _ _ rfl

/-- Witness of C20: an error is recorded, `demo1` is then set and cleared with
success, and the status still reports the recorded error. -/
theorem lastError_survives_requests_witness :
    getProp (handleGetProxyStatus
        (run (onProxyError "2024-01-01T00:00:00.000Z" proxyErrorDetails activeWorld)
          ([Request.setProxy accepting demo1, Request.clearProxy accepting].map
            Request.toEvent))).2 "lastError"
      = .obj [("message", .str "net::ERR_PROXY_CONNECTION_FAILED"),
              ("timestamp", .str "2024-01-01T00:00:00.000Z")] :=
  ((lastError_survives_requests activeWorld).2.2 "2024-01-01T00:00:00.000Z"
    proxyErrorDetails [Request.setProxy accepting demo1, Request.clearProxy accepting]).trans
    rfl

/-! ## The UI client agrees with the store -/

/-- The dispatcher hands the message of `ProxyService.setProxy` to `handleSetProxy` with
the descriptor it carries. -/
theorem onMessage_setProxyRequest (env : Env) (net : Net) (proxy : JsVal) (w : World) :
    onMessage env net (setProxyRequest proxy) w
      = ((handleSetProxy env proxy w).1, some (handleSetProxy env proxy w).2) := by
  simp [onMessage, setProxyRequest, isNullish, getProp_obj, List.lookup, strictEqStr]

theorem isNullish_of_truthy (v : JsVal) (h : truthy v = true) : isNullish v = false := by
  cases v <;> simp_all [truthy, isNullish]

/-- A reply of `handleSetProxy` with a truthy `success` comes from a descriptor that
passed validation and a platform that accepted the change. -/
theorem handleSetProxy_success_inv (env : Env) (proxy : JsVal) (w : World)
    (h : truthy (getProp (handleSetProxy env proxy w).2 "success") = true) :
    passesValidation proxy = true ∧ truthy env.runtimeLastError = false := by
  revert h
  unfold passesValidation isDirect handleSetProxy handleSetProxy.apply proxySettingsSet
  cases h1 : truthy proxy <;> cases h2 : truthy (getProp proxy "ip") <;>
    cases h3 : strictEqStr (getProp proxy "id") "direct" <;>
    cases h4 : strictEqStr (getProp proxy "ip") "DIRECT" <;>
    cases h5 : truthy (getProp proxy "port") <;>
    cases h6 : truthy env.runtimeLastError <;>
    simp [h1, h2, h3, h4, h5, h6, getProp_obj, List.lookup, truthy]

/-- What `handleSetProxy` replies and stores when the descriptor passes validation and
the platform accepts. -/
theorem handleSetProxy_stores (env : Env) (proxy : JsVal) (w : World)
    (hv : passesValidation proxy = true) (hok : truthy env.runtimeLastError = false) :
    (handleSetProxy env proxy w).2 = .obj [("success", .bool true)]
      ∧ (handleSetProxy env proxy w).1.storage "proxyActive"
          = .bool (!strictEqStr (getProp proxy "id") "direct")
      ∧ (handleSetProxy env proxy w).1.storage "selectedProxy" = proxy := by
  revert hv
  unfold passesValidation isDirect handleSetProxy handleSetProxy.apply proxySettingsSet
  cases h1 : truthy proxy <;> cases h2 : truthy (getProp proxy "ip") <;>
    cases h3 : strictEqStr (getProp proxy "id") "direct" <;>
    cases h4 : strictEqStr (getProp proxy "ip") "DIRECT" <;>
    cases h5 : truthy (getProp proxy "port") <;>
    simp [hok, h1, h2, h3, h4, h5, storageSet, List.lookup]

/-- `ProxyService.setProxy` resolves only on a truthy response with a truthy
`success`. -/
theorem ProxyService.setProxy_ok_inv (toStr : JsVal → String) (chromeAvailable : Bool)
    (lastError response : JsVal)
    (h : ProxyService.setProxy toStr chromeAvailable lastError response = .ok ()) :
    chromeAvailable = true ∧ truthy lastError = false
      ∧ truthy response = true ∧ truthy (getProp response "success") = true := by
  revert h
  unfold ProxyService.setProxy
  cases hc : chromeAvailable <;> cases hl : truthy lastError <;>
    cases hr : truthy response <;> cases hs : truthy (getProp response "success") <;>
    simp [hc, hl, hr, hs]

/-- After a resolved `setProxy`, `connectToProxy` selects the descriptor and sets
`isConnected` to `proxy.id !== 'direct'`. -/
theorem App.connectToProxy_ok (nullReadMessage : String) (proxy : JsVal) (s : AppState)
    (hp : isNullish proxy = false) :
    (App.connectToProxy nullReadMessage (.ok ()) proxy s).isConnected
        = .bool (!strictEqStr (getProp proxy "id") "direct")
      ∧ (App.connectToProxy nullReadMessage (.ok ()) proxy s).selectedProxy = proxy := by
  unfold App.connectToProxy
  cases h1 : strictEqStr (getProp proxy "id") "direct" <;>
    cases h2 : strictEqStr (getProp proxy "id") "system" <;>
    cases h3 : strictEqStr (getProp proxy "id") "pac-demo" <;>
    simp [hp, h1, h2, h3]

/-- C21: for every descriptor, prior store and popup state, if `ProxyService.setProxy`
resolves on the reply that `handleSetProxy` gave to its message, then that reply is
`{success:true}`, the `isConnected` that `App.connectToProxy` sets equals the
`proxyActive` that `handleSetProxy` wrote to the store, and the `selectedProxy` it sets
equals the stored `selectedProxy`. -/
theorem connectToProxy_agrees_with_store (toStr : JsVal → String) (chromeAvailable : Bool)
    (lastError : JsVal) (nullReadMessage : String) (env : Env) (proxy : JsVal) (w : World)
    (s : AppState)
    (h : ProxyService.setProxy toStr chromeAvailable lastError (handleSetProxy env proxy w).2
        = .ok ()) :
    (handleSetProxy env proxy w).2 = .obj [("success", .bool true)]
      ∧ (App.connectToProxy nullReadMessage
            (ProxyService.setProxy toStr chromeAvailable lastError
              (handleSetProxy env proxy w).2) proxy s).isConnected
          = (handleSetProxy env proxy w).1.storage "proxyActive"
      ∧ (App.connectToProxy nullReadMessage
            (ProxyService.setProxy toStr chromeAvailable lastError
              (handleSetProxy env proxy w).2) proxy s).selectedProxy
          = (handleSetProxy env proxy w).1.storage "selectedProxy" := by
  have hs := (ProxyService.setProxy_ok_inv toStr chromeAvailable lastError _ h).2.2.2
  obtain ⟨hv, hok⟩ := handleSetProxy_success_inv env proxy w hs
  obtain ⟨hreply, hactive, hsel⟩ := handleSetProxy_stores env proxy w hv hok
  have hp : truthy proxy = true := by
    revert hv
    unfold passesValidation
    cases h1 : truthy proxy <;> simp [h1]
  obtain ⟨hui1, hui2⟩ :=
    App.connectToProxy_ok nullReadMessage proxy s (isNullish_of_truthy proxy hp)
  rw [h, hactive, hsel]
  exact ⟨hreply, hui1, hui2⟩

/-- Witness of C21: `demo1` chosen in the freshly opened popup, accepted by the
platform; the popup shows connected and the store says active. -/
theorem connectToProxy_agrees_with_store_witness :
    ProxyService.setProxy (fun _ => "") true .undefined
        (handleSetProxy accepting demo1 emptyWorld).2 = .ok ()
      ∧ (handleSetProxy accepting demo1 emptyWorld).1.storage "proxyActive" = .bool true
      ∧ (handleSetProxy accepting demo1 emptyWorld).2 = .obj [("success", .bool true)]
      ∧ (App.connectToProxy "Cannot read properties of null"
            (ProxyService.setProxy (fun _ => "") true .undefined
              (handleSetProxy accepting demo1 emptyWorld).2) demo1 initialAppState).isConnected
          = (handleSetProxy accepting demo1 emptyWorld).1.storage "proxyActive"
      ∧ (App.connectToProxy "Cannot read properties of null"
            (ProxyService.setProxy (fun _ => "") true .undefined
              (handleSetProxy accepting demo1 emptyWorld).2) demo1 initialAppState).selectedProxy
          = (handleSetProxy accepting demo1 emptyWorld).1.storage "selectedProxy" :=
  ⟨rfl, rfl,
   connectToProxy_agrees_with_store (fun _ => "") true .undefined
     "Cannot read properties of null" accepting demo1 emptyWorld initialAppState rfl⟩

end VpnExtension
